import Mathlib

/-!
Verification of the mnexium-get-started repository: a shallow embedding of
the demo chat server (`chatGPTClone/server.js`, `chatGPTClone/chatApi.js`,
`memoriesApi.js`) and, where a claim concerns the remote Memory Service
that the repository only calls, a model of that service built from the
specification's description of its black-box contract.
-/

set_option autoImplicit false

namespace Mnexium

/-- A JSON value, as produced by `JSON.parse` / consumed by `JSON.stringify`
in the JavaScript sources.  Objects are ordered field lists, matching the
insertion order the JavaScript code uses when building literals. -/
inductive Json where
  | null : Json
  | bool (b : Bool) : Json
  | num (n : Int) : Json
  | str (s : String) : Json
  | arr (elems : List Json) : Json
  | obj (fields : List (String × Json)) : Json

/-- Field lookup on a JSON object (`data.field` in JavaScript): the first
field with the given name, or `none` when the value is not an object or has
no such field. -/
def Json.getField : Json → String → Option Json
  | .obj fields, k => (fields.find? (fun f => decide (f.1 = k))).map (·.2)
  | _, _ => none

/-- An HTTP response as written by the Node handlers: the status passed to
`res.writeHead` and the JSON body passed to `res.end`. -/
structure HttpResponse where
  status : Nat
  body : Json

/-- The outcome of one remote `fetch` + body read as seen by a wrapper in
`chatApi.js`: either the transport fails (`fetch` rejects with an error
message), or a response body text arrives and `JSON.parse` on it either
succeeds with a JSON value or throws with an error message. -/
inductive RemoteOutcome where
  | fetchError (msg : String)
  | response (parsed : Except String Json)

/-- `getHistoryList` from `chatGPTClone/chatApi.js` (lines 19-40), as a
function of the remote outcome.  Only `JSON.parse` is inside the `try`:
a parse failure is caught and answered with `200 {chats: []}`, while a
transport failure escapes the function (no response is written), which we
model as `none`. -/
def getHistoryList : RemoteOutcome → Option HttpResponse
  | .fetchError _ => none
  | .response (.ok data) => some ⟨200, data⟩
  | .response (.error _) => some ⟨200, .obj [("chats", .arr [])]⟩

/-- `getChatMessages` from `chatGPTClone/chatApi.js` (lines 46-67): same
shape as `getHistoryList` with fallback body `{messages: []}`. -/
def getChatMessages : RemoteOutcome → Option HttpResponse
  | .fetchError _ => none
  | .response (.ok data) => some ⟨200, data⟩
  | .response (.error _) => some ⟨200, .obj [("messages", .arr [])]⟩

/-- `deleteChat` from `chatGPTClone/chatApi.js` (lines 73-94): same shape
with fallback body `{success: true}`. -/
def deleteChat : RemoteOutcome → Option HttpResponse
  | .fetchError _ => none
  | .response (.ok data) => some ⟨200, data⟩
  | .response (.error _) => some ⟨200, .obj [("success", .bool true)]⟩

/-- `handleListMemories` from `memoriesApi.js` (lines 134-144): the whole
call is inside `try`, so both transport and parse failures are caught and
answered with `500 {error, memories: []}`. -/
def handleListMemories : RemoteOutcome → HttpResponse
  | .fetchError msg => ⟨500, .obj [("error", .str msg), ("memories", .arr [])]⟩
  | .response (.ok data) => ⟨200, data⟩
  | .response (.error msg) => ⟨500, .obj [("error", .str msg), ("memories", .arr [])]⟩

/-- `handleSearchMemories` from `memoriesApi.js` (lines 146-156): identical
policy to `handleListMemories`. -/
def handleSearchMemories : RemoteOutcome → HttpResponse
  | .fetchError msg => ⟨500, .obj [("error", .str msg), ("memories", .arr [])]⟩
  | .response (.ok data) => ⟨200, data⟩
  | .response (.error msg) => ⟨500, .obj [("error", .str msg), ("memories", .arr [])]⟩

/-! ## The demo HTTP server (`chatGPTClone/server.js`) -/

/-- A query string, as iterated by `URLSearchParams`: ordered key/value
pairs; `get` returns the first value for a key, or `null` when absent. -/
abbrev Query := List (String × String)

/-- `url.searchParams.get(name)`: first value for the key, `none` for
JavaScript `null`. -/
def Query.get (q : Query) (name : String) : Option String :=
  (List.find? (fun p => decide (p.1 = name)) q).map (·.2)

/-- JavaScript truthiness of a `searchParams.get` result: `null` and the
empty string are falsy (`if (!subjectId)` in `server.js`). -/
def truthy : Option String → Bool
  | none => false
  | some s => !(s = "")

/-- Character class of the `server.js` route regex `[a-f0-9-]`. -/
def uuidChar (c : Char) : Bool :=
  c.isDigit || (decide (Char.ofNat 97 ≤ c) && decide (c ≤ Char.ofNat 102)) || c = Char.ofNat 45

/-- The `server.js` test `pathname.match(/^\/u\/([a-f0-9-]+)$/)`, decided
over the character list of the path. -/
def isUuidPage (p : String) : Bool :=
  match p.data with
  | '/' :: 'u' :: '/' :: rest => !rest.isEmpty && rest.all uuidChar
  | _ => false

/-- The `server.js` test `pathname.match(/^\/u\/([a-f0-9-]+)\/memories$/)`:
a maximal non-empty `[a-f0-9-]+` run after `/u/`, followed exactly by
`/memories`. -/
def isMemoriesPage (p : String) : Bool :=
  match p.data with
  | '/' :: 'u' :: '/' :: rest =>
    let u := rest.takeWhile uuidChar
    !u.isEmpty && decide (rest.drop u.length = "/memories".data)
  | _ => false

/-- What the `server.js` request handler decides to do with a request:
answer it locally, serve a file, or call one of the wrapper functions
(forward to the external API). -/
inductive ServerAction where
  | respond (r : HttpResponse)
  | respondStatus (status : Nat)
  | redirectToNewSession
  | servePage (file : String)
  | forwardHistoryList (subjectId : String)
  | forwardHistoryRead (chatId subjectId : String)
  | forwardHistoryDelete (chatId subjectId : String)
  | forwardMemoriesList (subjectId : String)
  | forwardMemoriesSearch (subjectId q : String)
  | forwardChat
  | serveStatic (path : String)

/-- The routing chain of the `server.js` request handler (lines 18-172),
in source order: OPTIONS, root redirect, `/u/:uuid` pages, the five
pass-through API routes with their required-parameter checks, the `/chat`
POST route, and finally static file serving. -/
def handleRequest (method pathname : String) (query : Query) : ServerAction :=
  if method = "OPTIONS" then .respondStatus 204
  else if pathname = "/" then .redirectToNewSession
  else if isUuidPage pathname then .servePage "index.html"
  else if isMemoriesPage pathname then .servePage "memories.html"
  else if method = "GET" && pathname = "/history/list" then
    let subjectId := query.get "subject_id"
    if !truthy subjectId then .respond ⟨400, .obj [("error", .str "subject_id required")]⟩
    else .forwardHistoryList (subjectId.getD "")
  else if method = "GET" && pathname = "/history/read" then
    let chatId := query.get "chat_id"
    let subjectId := query.get "subject_id"
    if !truthy chatId then .respond ⟨400, .obj [("error", .str "chat_id required")]⟩
    else .forwardHistoryRead (chatId.getD "") (subjectId.getD "")
  else if method = "DELETE" && pathname = "/history/delete" then
    let chatId := query.get "chat_id"
    let subjectId := query.get "subject_id"
    if !truthy chatId then .respond ⟨400, .obj [("error", .str "chat_id required")]⟩
    else .forwardHistoryDelete (chatId.getD "") (subjectId.getD "")
  else if method = "GET" && pathname = "/memories/list" then
    let subjectId := query.get "subject_id"
    if !truthy subjectId then .respond ⟨400, .obj [("error", .str "subject_id required")]⟩
    else .forwardMemoriesList (subjectId.getD "")
  else if method = "GET" && pathname = "/memories/search" then
    let subjectId := query.get "subject_id"
    let q := query.get "q"
    if !truthy subjectId then .respond ⟨400, .obj [("error", .str "subject_id required")]⟩
    else if !truthy q then .respond ⟨400, .obj [("error", .str "q (query) required")]⟩
    else .forwardMemoriesSearch (subjectId.getD "") (q.getD "")
  else if method = "POST" && pathname = "/chat" then .forwardChat
  else .serveStatic pathname

/-! ## The chat wrapper (`chatApi.js` `chat`) and the `/chat` route body -/

/-- One element of the `messages` array the browser posts to `/chat`. -/
structure ChatMessage where
  role : String
  content : String

/-- The memory-control object (`mnx`) built by `chat` in `chatApi.js`. -/
structure MnxControl where
  subject_id : String
  chat_id : String
  log : Bool
  learn : Bool
  «recall» : Bool
  history : Bool

/-- The request body `chat` in `chatApi.js` sends to `POST /api/v1/responses`. -/
structure ResponsesBody where
  model : String
  input : String
  mnx : MnxControl

/-- The body `chat` (`chatApi.js` lines 100-122) builds from its arguments:
`input` is `messages[messages.length - 1].content` and every memory flag is
the literal `true`.  On an empty `messages` array the indexing yields
`undefined` and `.content` throws, modelled as `none`. -/
def chatRequestBody (messages : List ChatMessage) (subjectId chatId : String) :
    Option ResponsesBody :=
  match messages.getLast? with
  | none => none
  | some last => some ⟨"gpt-4o-mini", last.content, ⟨subjectId, chatId, true, true, true, true⟩⟩

/-- The outcome of the upstream `fetch` to `/api/v1/responses` as seen by
`chat`: the transport or `response.json()` can fail with an error, or a
parsed JSON document arrives. -/
inductive UpstreamOutcome where
  | failure (msg : String)
  | ok (data : Json)

/-- One JavaScript property access `v[p]` (with `v[0]` as `v["0"]`) as it
happens in `data.output[0].content[0].text`.  A value is `Option Json` with
`none` for `undefined`.  Reading a property of `undefined` or of `null`
throws a TypeError; an object yields the named field or `undefined`; an
array answers index `"0"` with its first element (or `undefined` when
empty) and any other name here with `undefined`; a string answers index
`"0"` with its first character and other names with `undefined`; numbers
and booleans always yield `undefined`.  No other access throws. -/
def jsProp : Option Json → String → Except String (Option Json)
  | none, p => .error ("TypeError: Cannot read properties of undefined (reading " ++ p ++ ")")
  | some .null, p => .error ("TypeError: Cannot read properties of null (reading " ++ p ++ ")")
  | some (.obj fields), p => .ok ((fields.find? (fun f => decide (f.1 = p))).map (·.2))
  | some (.arr elems), p => .ok (if p = "0" then elems.head? else none)
  | some (.str s), p =>
    .ok (if p = "0" then (s.data.head?).map (fun c => Json.str (String.mk [c])) else none)
  | some (.bool _), _ => .ok none
  | some (.num _), _ => .ok none

/-- The JavaScript access path `data.output[0].content[0].text` performed by
`chat` on the upstream JSON: an intermediate `undefined` or `null` makes the
next access throw (`Except.error`), while a final `text` that is merely
absent yields `undefined` (`Except.ok none`) without throwing — JavaScript
only throws when reading a property of `undefined`/`null`, not when the
property itself is missing. -/
def extractContent (data : Json) : Except String (Option Json) := do
  let a ← jsProp (some data) "output"
  let b ← jsProp a "0"
  let c ← jsProp b "content"
  let d ← jsProp c "0"
  jsProp d "text"

/-- `JSON.stringify({ content })` as used by `chat`: when `content` is
`undefined` the key is dropped, producing `{}`; otherwise the value (of any
JSON type — the code never checks it is a string) is kept under
`content`. -/
def contentResponseBody : Option Json → Json
  | none => .obj []
  | some v => .obj [("content", v)]

/-- `chat` from `chatApi.js` as a function of its arguments and the upstream
outcome: `Except.error` models an exception escaping the function (thrown
before any response is written), `Except.ok` the single 200 response it
writes, whose body is `JSON.stringify({ content })`. -/
def chat (messages : List ChatMessage) (subjectId chatId : String)
    (up : UpstreamOutcome) : Except String HttpResponse :=
  match chatRequestBody messages subjectId chatId with
  | none => .error "TypeError: Cannot read properties of undefined"
  | some _ =>
    match up with
    | .failure msg => .error msg
    | .ok data =>
      match extractContent data with
      | .error msg => .error msg
      | .ok content => .ok ⟨200, contentResponseBody content⟩

/-- The outcome of `JSON.parse(body)` plus destructuring in the `/chat`
route of `server.js` (lines 142-151): either the body is not valid JSON
(`invalid`), or it parses and yields a `messages` value together with
`subjectId` and `chatId`.  A missing or non-array `messages` makes the
indexing in `chat` throw exactly as an empty array does, so both are
modelled as the empty list. -/
inductive ChatBodyParse where
  | invalid (msg : String)
  | parsed (messages : List ChatMessage) (subjectId chatId : String)

/-- The `req.on('end')` callback of the `/chat` route in `server.js`
(lines 142-151): parse the body and call `chat` inside `try`, answering
`500 {error: error.message}` for any exception.  The function is total:
exactly one response is produced for every outcome. -/
def chatRoute (body : ChatBodyParse) (up : UpstreamOutcome) : HttpResponse :=
  match body with
  | .invalid msg => ⟨500, .obj [("error", .str msg)]⟩
  | .parsed messages subjectId chatId =>
    match chat messages subjectId chatId up with
    | .error msg => ⟨500, .obj [("error", .str msg)]⟩
    | .ok r => r

/-! ## The remote Memory Service, modelled from the spec

The repository contains only clients and tests of the Memory Service; the
service itself is absent from the source tree.  The definitions in this
namespace are therefore built from the specification's description of the
service's black-box contract (sections 6, 8 and the glossary), not from
source code. -/

namespace MemoryService

/-- Modelled from the spec: the status of a fact — "kind, importance, and
status (active/superseded/deleted)"; deletion is a soft delete. -/
inductive FactStatus where
  | active
  | superseded
  | deleted
deriving DecidableEq

/-- Modelled from the spec: a fact (memory) — "a durable, textual statement
about a subject", with a status and, when superseded, a reference to the
fact that replaced it. -/
structure Fact where
  id : String
  subject_id : String
  text : String
  status : FactStatus
  superseded_by : Option String

/-- Modelled from the spec: the service's fact store for one tenant, newest
fact first. -/
abbrev FactStore := List Fact

/-- Modelled from the spec: `GET /memories/:id` — the fact with the given
id, if any. -/
def getFact (store : FactStore) (id : String) : Option Fact :=
  List.find? (fun f => decide (f.id = id)) store

/-- Modelled from the spec: marking an existing fact as "replaced by a newer
one" (glossary, Supersede) — the fact with the superseded id becomes
non-active and records its replacement. -/
def markSuperseded (byId oldId : String) (f : Fact) : Fact :=
  if f.id = oldId then { f with status := .superseded, superseded_by := some byId } else f

/-- Modelled from the spec: `POST /memories` — create a new active fact,
and when a `supersedes` id is given, mark that fact as superseded by the
new one ("create-with-supersedes marks the original as non-active"). -/
def createFact (store : FactStore) (id subjectId text : String)
    (supersedes : Option String) : FactStore :=
  let base : FactStore :=
    match supersedes with
    | none => store
    | some oldId => List.map (markSuperseded id oldId) store
  ⟨id, subjectId, text, .active, none⟩ :: base

/-- Modelled from the spec: which statuses a listing shows — by default
only active facts; with `include_superseded=true` superseded facts are
surfaced as well ("superseded facts are excluded from default reads"). -/
def listedStatus (includeSuperseded : Bool) (s : FactStatus) : Bool :=
  match s with
  | .active => true
  | .superseded => includeSuperseded
  | .deleted => false

/-- Modelled from the spec: `GET /memories?subject_id=...` — the facts of
one subject, filtered by `listedStatus`. -/
def listFacts (store : FactStore) (subjectId : String) (includeSuperseded : Bool) :
    List Fact :=
  List.filter (fun f => decide (f.subject_id = subjectId) && listedStatus includeSuperseded f.status) store

/-- Modelled from the spec: `GET /memories/search?subject_id=...&q=...` —
"only active memories are returned by default".  The relevance scoring is
internal to the service, so the match predicate is a parameter; search
results are always drawn from the default (active-only) listing. -/
def searchFacts (relevant : String → Bool) (store : FactStore) (subjectId : String) :
    List Fact :=
  List.filter (fun f => relevant f.text) (listFacts store subjectId false)

/-- Modelled from the spec: `DELETE /memories/:id` — a soft delete that is
idempotent: "deleting twice, or deleting a non-existent id, returns success
rather than an error".  Returns the new store and the response. -/
def deleteFact (store : FactStore) (id : String) : FactStore × HttpResponse :=
  (List.map (fun f => if f.id = id then { f with status := .deleted } else f) store,
   ⟨200, .obj [("ok", .bool true)]⟩)

/-- Modelled from the spec: `POST /memories/:id/restore` — restoring a
superseded fact; "restoring an already-active fact is a no-op that reports
`restored: false`".  An unknown id is an unknown resource (404). -/
def restoreFact (store : FactStore) (id : String) : FactStore × HttpResponse :=
  match getFact store id with
  | none => (store, ⟨404, .obj [("error", .str "not_found")]⟩)
  | some f =>
    if f.status = .active then
      (store, ⟨200, .obj [("ok", .bool true), ("restored", .bool false),
                          ("message", .str "Memory is already active")]⟩)
    else
      (List.map (fun g => if g.id = id then { g with status := FactStatus.active, superseded_by := none } else g) store,
       ⟨200, .obj [("ok", .bool true), ("restored", .bool true)]⟩)

/-! ### Agent state (spec: "small-value keyed agent-state endpoints
(PUT/GET/DELETE) scoped by a subject header") -/

/-- Modelled from the spec: the agent-state store — "a small, TTL-bounded
key-value store scoped per subject", keyed by (subject, key), newest entry
first. -/
abbrev StateStore := List ((String × String) × Json)

/-- Modelled from the spec: the stored value for a subject and key, if
any. -/
def stateValue (store : StateStore) (subjectId key : String) : Option Json :=
  (List.find? (fun e => decide (e.1 = (subjectId, key))) store).map (·.2)

/-- Modelled from the spec: `PUT /state/:key` with the `X-Subject-ID`
header — store the JSON value under (subject, key); a request lacking the
subject header is answered `400 {error: missing_subject_id}`. -/
def statePut (store : StateStore) (subjectHeader : Option String) (key : String)
    (value : Json) : StateStore × HttpResponse :=
  match subjectHeader with
  | none => (store, ⟨400, .obj [("error", .str "missing_subject_id")]⟩)
  | some s => (((s, key), value) :: store, ⟨200, .obj [("ok", .bool true)]⟩)

/-- Modelled from the spec: `GET /state/:key` — the exact stored value for
the subject and key, `404 {error: not_found}` when none is stored, and
`400 {error: missing_subject_id}` without the subject header. -/
def stateGet (store : StateStore) (subjectHeader : Option String) (key : String) :
    HttpResponse :=
  match subjectHeader with
  | none => ⟨400, .obj [("error", .str "missing_subject_id")]⟩
  | some s =>
    match stateValue store s key with
    | none => ⟨404, .obj [("error", .str "not_found")]⟩
    | some v => ⟨200, .obj [("key", .str key), ("value", v)]⟩

/-- Modelled from the spec: `DELETE /state/:key` — remove the entry for the
subject and key; without the subject header, `400 {error:
missing_subject_id}`. -/
def stateDelete (store : StateStore) (subjectHeader : Option String) (key : String) :
    StateStore × HttpResponse :=
  match subjectHeader with
  | none => (store, ⟨400, .obj [("error", .str "missing_subject_id")]⟩)
  | some s =>
    (List.filter (fun e => !decide (e.1 = (s, key))) store,
     ⟨200, .obj [("ok", .bool true)]⟩)

/-! ### Usage metering (spec: "429 with numeric current/limit fields and
the fixed code usage_limit_exceeded") -/

/-- Modelled from the spec: a subject's monthly metered-action usage. -/
structure Usage where
  current : Nat
  limit : Nat

/-- Modelled from the spec: one metered API call for a subject — while the
monthly action quota is not yet exhausted the call proceeds and is counted;
once the quota is exceeded every further metered call is refused with
`429 {error: usage_limit_exceeded, current, limit, message}`. -/
def meteredCall (u : Usage) (proceed : HttpResponse) : Usage × HttpResponse :=
  if u.limit ≤ u.current then
    (u, ⟨429, .obj [("error", .str "usage_limit_exceeded"),
                    ("current", .num u.current),
                    ("limit", .num u.limit),
                    ("message", .str "Monthly action limit exceeded")]⟩)
  else ({ u with current := u.current + 1 }, proceed)

/-! ### Chat history (spec: "chat-history list/read/delete endpoints keyed
by conversation and subject identifiers") -/

/-- Modelled from the spec: the chat-history store — logged turns keyed by
conversation identifier, in logging order. -/
abbrev HistoryStore := List (String × ChatMessage)

/-- Modelled from the spec: logging a chat turn — when the memory-control
object has `log: true`, the turn's messages are persisted under the
conversation identifier; otherwise nothing is stored. -/
def logTurn (store : HistoryStore) (chatId : String) (turn : List ChatMessage)
    (log : Bool) : HistoryStore :=
  if log then store ++ List.map (fun m => (chatId, m)) turn else store

/-- Modelled from the spec: the messages stored under one conversation
identifier, in order. -/
def historyMessages (store : HistoryStore) (chatId : String) : List ChatMessage :=
  List.map (·.2) (List.filter (fun e => decide (e.1 = chatId)) store)

/-- Modelled from the spec: `GET /chat/history/read?chat_id=...` — always
`200 {messages: [...]}`; an unknown conversation identifier yields an empty
list, not an error. -/
def historyRead (store : HistoryStore) (chatId : String) : HttpResponse :=
  ⟨200, .obj [("messages", .arr (List.map (fun m => Json.obj [("role", .str m.role), ("message", .str m.content)]) (historyMessages store chatId)))]⟩

/-- Modelled from the spec: `DELETE /chat/history/delete?chat_id=...` —
remove every logged message of the conversation; deletion is idempotent and
reports `{success: true}`. -/
def historyDelete (store : HistoryStore) (chatId : String) :
    HistoryStore × HttpResponse :=
  (List.filter (fun e => !decide (e.1 = chatId)) store,
   ⟨200, .obj [("success", .bool true)]⟩)

end MemoryService

/-! ## Helper lemmas -/

/-- `markSuperseded` never changes a fact's id. -/
theorem MemoryService.markSuperseded_id (byId oldId : String) (f : MemoryService.Fact) :
    (MemoryService.markSuperseded byId oldId f).id = f.id := by
  unfold MemoryService.markSuperseded
  split <;> rfl

/-- `markSuperseded` never changes a fact's subject. -/
theorem MemoryService.markSuperseded_subject (byId oldId : String) (f : MemoryService.Fact) :
    (MemoryService.markSuperseded byId oldId f).subject_id = f.subject_id := by
  unfold MemoryService.markSuperseded
  split <;> rfl

/-- `markSuperseded` applied to the fact bearing the target id. -/
theorem MemoryService.markSuperseded_self (byId : String) (f : MemoryService.Fact) :
    MemoryService.markSuperseded byId f.id f =
      { f with status := .superseded, superseded_by := some byId } := by
  unfold MemoryService.markSuperseded
  rw [if_pos rfl]

/-! ## Claims -/

/-- Claim C1, counterexample.  The claim says that on transport failure
`getHistoryList` catches the error and responds with a best-effort JSON
body.  In `chatApi.js` only `JSON.parse` is inside the `try`; when `fetch`
rejects, the exception escapes the function and no response is written at
all, modelled here as `none`. -/
theorem getHistoryList_fetchError_unhandled :
    getHistoryList (.fetchError "connect ECONNREFUSED") = none := rfl

/-- Claim C1, amended: for `getHistoryList`, `getChatMessages` and
`deleteChat`, a failure to parse the remote response body as JSON is
caught and answered with status 200 and the empty-shaped body
(`{chats: []}`, `{messages: []}`, `{success: true}` respectively), but a
transport failure is not caught by these three functions and propagates
with no response written; the `handleListMemories` /
`handleSearchMemories` wrappers do catch both kinds of failure and answer
500 with an error field and an empty `memories` list. -/
theorem wrappers_failure_policy (msg : String) :
    getHistoryList (.response (.error msg)) = some ⟨200, .obj [("chats", .arr [])]⟩ ∧
    getChatMessages (.response (.error msg)) = some ⟨200, .obj [("messages", .arr [])]⟩ ∧
    deleteChat (.response (.error msg)) = some ⟨200, .obj [("success", .bool true)]⟩ ∧
    getHistoryList (.fetchError msg) = none ∧
    getChatMessages (.fetchError msg) = none ∧
    deleteChat (.fetchError msg) = none ∧
    (handleListMemories (.fetchError msg)).status = 500 ∧
    (handleListMemories (.fetchError msg)).body.getField "memories" = some (.arr []) ∧
    (handleSearchMemories (.fetchError msg)).status = 500 ∧
    (handleSearchMemories (.fetchError msg)).body.getField "error" = some (.str msg) :=
  ⟨rfl, rfl, rfl, rfl, rfl, rfl, rfl, rfl, rfl, rfl⟩

/-- Claim C5: deleting a fact is idempotent — deleting any id (including
one no fact has, and including an id already deleted by the immediately
preceding call) answers the same success response, never an error. -/
theorem deleteFact_idempotent_success (store : MemoryService.FactStore) (id : String) :
    (MemoryService.deleteFact store id).2 = ⟨200, .obj [("ok", .bool true)]⟩ ∧
    (MemoryService.deleteFact (MemoryService.deleteFact store id).1 id).2 =
      ⟨200, .obj [("ok", .bool true)]⟩ ∧
    (MemoryService.deleteFact [] id).2 = ⟨200, .obj [("ok", .bool true)]⟩ :=
  ⟨rfl, rfl, rfl⟩

/-- Claim C6: restoring a fact whose status is active is a no-op — the
store is unchanged and the response reports `ok: true` with
`restored: false`. -/
theorem restoreFact_active_noop (store : MemoryService.FactStore) (id : String)
    (f : MemoryService.Fact) (hget : MemoryService.getFact store id = some f)
    (hactive : f.status = .active) :
    MemoryService.restoreFact store id =
      (store, ⟨200, .obj [("ok", .bool true), ("restored", .bool false),
                          ("message", .str "Memory is already active")]⟩) := by
  unfold MemoryService.restoreFact
  rw [hget]
  simp [hactive]

/-- Witness for C6 at a concrete store. -/
theorem restoreFact_active_noop_witness :
    MemoryService.restoreFact [⟨"m1", "s1", "likes tea", .active, none⟩] "m1" =
      ([⟨"m1", "s1", "likes tea", .active, none⟩],
       ⟨200, .obj [("ok", .bool true), ("restored", .bool false),
                   ("message", .str "Memory is already active")]⟩) :=
  restoreFact_active_noop _ "m1" ⟨"m1", "s1", "likes tea", .active, none⟩ rfl rfl

/-- Claim C4: once a subject's monthly quota is exhausted, a metered call
answers 429 with `error` equal to the fixed code `usage_limit_exceeded`,
numeric `current` and `limit` fields, and a string `message` field. -/
theorem meteredCall_quota_exceeded (u : MemoryService.Usage) (proceed : HttpResponse)
    (h : u.limit ≤ u.current) :
    (MemoryService.meteredCall u proceed).2.status = 429 ∧
    (MemoryService.meteredCall u proceed).2.body.getField "error" =
      some (.str "usage_limit_exceeded") ∧
    (∃ n : Int, (MemoryService.meteredCall u proceed).2.body.getField "current" =
      some (.num n)) ∧
    (∃ n : Int, (MemoryService.meteredCall u proceed).2.body.getField "limit" =
      some (.num n)) ∧
    (∃ s : String, (MemoryService.meteredCall u proceed).2.body.getField "message" =
      some (.str s)) := by
  have hcall : MemoryService.meteredCall u proceed =
      (u, ⟨429, .obj [("error", .str "usage_limit_exceeded"),
                      ("current", .num u.current),
                      ("limit", .num u.limit),
                      ("message", .str "Monthly action limit exceeded")]⟩) := by
    unfold MemoryService.meteredCall
    rw [if_pos h]
  rw [hcall]
  exact ⟨rfl, rfl, ⟨u.current, rfl⟩, ⟨u.limit, rfl⟩, ⟨"Monthly action limit exceeded", rfl⟩⟩

/-- Witness for C4 at a concrete exhausted quota. -/
theorem meteredCall_quota_exceeded_witness :
    ((MemoryService.meteredCall ⟨5, 5⟩ ⟨200, .null⟩).2.status = 429 ∧
    (MemoryService.meteredCall ⟨5, 5⟩ ⟨200, .null⟩).2.body.getField "error" =
      some (.str "usage_limit_exceeded") ∧
    (∃ n : Int, (MemoryService.meteredCall ⟨5, 5⟩ ⟨200, .null⟩).2.body.getField "current" =
      some (.num n)) ∧
    (∃ n : Int, (MemoryService.meteredCall ⟨5, 5⟩ ⟨200, .null⟩).2.body.getField "limit" =
      some (.num n)) ∧
    (∃ s : String, (MemoryService.meteredCall ⟨5, 5⟩ ⟨200, .null⟩).2.body.getField "message" =
      some (.str s))) :=
  meteredCall_quota_exceeded ⟨5, 5⟩ ⟨200, .null⟩ (Nat.le_refl 5)

/-- Claim C9: for a non-empty `messages` array, the `chat` wrapper sends
only the content of the final message as the `input` of the responses
request, and sets all four memory-control flags (`log`, `learn`, `recall`,
`history`) to the literal `true` — the client cannot influence them, as
they do not even appear in the wrapper's arguments. -/
theorem chatRequestBody_last_message_only (messages : List ChatMessage)
    (subjectId chatId : String) (h : messages ≠ []) :
    chatRequestBody messages subjectId chatId =
      some ⟨"gpt-4o-mini", (messages.getLast h).content,
            ⟨subjectId, chatId, true, true, true, true⟩⟩ := by
  unfold chatRequestBody
  rw [List.getLast?_eq_getLast messages h]

/-- Witness for C9: with two messages, only the second one's content is
forwarded. -/
theorem chatRequestBody_last_message_only_witness :
    chatRequestBody [⟨"user", "hello"⟩, ⟨"user", "what is my name"⟩] "subj" "chat1" =
      some ⟨"gpt-4o-mini", "what is my name", ⟨"subj", "chat1", true, true, true, true⟩⟩ :=
  chatRequestBody_last_message_only [⟨"user", "hello"⟩, ⟨"user", "what is my name"⟩]
    "subj" "chat1" (List.cons_ne_nil _ _)

/-- After removing every entry of a key, looking that key up finds
nothing. -/
theorem MemoryService.stateValue_delete (store : MemoryService.StateStore)
    (s key : String) :
    MemoryService.stateValue (MemoryService.stateDelete store (some s) key).1 s key =
      none := by
  unfold MemoryService.stateValue MemoryService.stateDelete
  induction store with
  | nil => rfl
  | cons e t ih =>
    by_cases h : e.1 = (s, key)
    · simp [List.filter_cons, h]
    · simp [List.filter_cons, h, List.find?_cons_of_neg]

/-- Claim C3: a PUT of any JSON value (nested objects, arrays and null
included) followed by a GET of the same key under the same subject answers
exactly the stored value; a GET of a key never stored, or of a key just
deleted, answers 404; and each state operation issued without the subject
header answers 400 with the error code `missing_subject_id`. -/
theorem agentState_contract (store : MemoryService.StateStore) (s key : String)
    (v : Json) (fresh : String)
    (hfresh : MemoryService.stateValue store s fresh = none) :
    MemoryService.stateGet (MemoryService.statePut store (some s) key v).1 (some s) key =
      ⟨200, .obj [("key", .str key), ("value", v)]⟩ ∧
    MemoryService.stateGet store (some s) fresh =
      ⟨404, .obj [("error", .str "not_found")]⟩ ∧
    MemoryService.stateGet (MemoryService.stateDelete store (some s) key).1 (some s) key =
      ⟨404, .obj [("error", .str "not_found")]⟩ ∧
    (MemoryService.statePut store none key v).2 =
      ⟨400, .obj [("error", .str "missing_subject_id")]⟩ ∧
    MemoryService.stateGet store none key =
      ⟨400, .obj [("error", .str "missing_subject_id")]⟩ ∧
    (MemoryService.stateDelete store none key).2 =
      ⟨400, .obj [("error", .str "missing_subject_id")]⟩ := by
  refine ⟨?_, ?_, ?_, rfl, rfl, rfl⟩
  · simp [MemoryService.stateGet, MemoryService.statePut, MemoryService.stateValue]
  · simp [MemoryService.stateGet, hfresh]
  · simp [MemoryService.stateGet, MemoryService.stateValue_delete]

/-- Witness for C3 with a nested value containing an array and null. -/
theorem agentState_contract_witness :
    MemoryService.stateGet
        (MemoryService.statePut [] (some "s1") "task"
          (.obj [("step", .num 1), ("data", .arr [.num 2, .null])])).1
        (some "s1") "task" =
      ⟨200, .obj [("key", .str "task"),
                  ("value", .obj [("step", .num 1), ("data", .arr [.num 2, .null])])]⟩ ∧
    MemoryService.stateGet [] (some "s1") "nope" =
      ⟨404, .obj [("error", .str "not_found")]⟩ ∧
    MemoryService.stateGet (MemoryService.stateDelete [] (some "s1") "task").1
        (some "s1") "task" =
      ⟨404, .obj [("error", .str "not_found")]⟩ ∧
    (MemoryService.statePut [] none "task"
        (.obj [("step", .num 1), ("data", .arr [.num 2, .null])])).2 =
      ⟨400, .obj [("error", .str "missing_subject_id")]⟩ ∧
    MemoryService.stateGet [] none "task" =
      ⟨400, .obj [("error", .str "missing_subject_id")]⟩ ∧
    (MemoryService.stateDelete [] none "task").2 =
      ⟨400, .obj [("error", .str "missing_subject_id")]⟩ :=
  agentState_contract [] "s1" "task"
    (.obj [("step", .num 1), ("data", .arr [.num 2, .null])]) "nope" rfl

/-- Messages logged under a conversation id are all recovered by filtering
for that id. -/
theorem MemoryService.historyMessages_logged (chatId : String)
    (turn : List ChatMessage) :
    MemoryService.historyMessages (List.map (fun m => (chatId, m)) turn) chatId =
      turn := by
  unfold MemoryService.historyMessages
  induction turn with
  | nil => rfl
  | cons m t ih => simpa using ih

/-- Claim C7: a turn logged with `log: true` under a `chat_id` becomes
visible to a history-read of that `chat_id` (the read yields the previous
messages followed by the logged turn); after deleting history for a
`chat_id` a history-read of it yields the empty message list (and the
delete reports `success: true`); and a history-read for a `chat_id` that
was never logged answers status 200 with an empty list, not an error. -/
theorem chatHistory_contract (store : MemoryService.HistoryStore) (chatId : String)
    (turn : List ChatMessage) (fresh : String)
    (hfresh : ∀ e ∈ store, e.1 ≠ fresh) :
    MemoryService.historyMessages (MemoryService.logTurn store chatId turn true) chatId =
      MemoryService.historyMessages store chatId ++ turn ∧
    MemoryService.historyMessages (MemoryService.historyDelete store chatId).1 chatId =
      [] ∧
    MemoryService.historyRead (MemoryService.historyDelete store chatId).1 chatId =
      ⟨200, .obj [("messages", .arr [])]⟩ ∧
    (MemoryService.historyDelete store chatId).2 =
      ⟨200, .obj [("success", .bool true)]⟩ ∧
    MemoryService.historyRead store fresh = ⟨200, .obj [("messages", .arr [])]⟩ ∧
    (MemoryService.historyRead store fresh).status = 200 := by
  have hdel : MemoryService.historyMessages
      (MemoryService.historyDelete store chatId).1 chatId = [] := by
    unfold MemoryService.historyMessages MemoryService.historyDelete
    simp
  have hfresh2 : MemoryService.historyMessages store fresh = [] := by
    unfold MemoryService.historyMessages
    rw [List.filter_eq_nil_iff.mpr]
    · rfl
    · intro e he
      simpa using hfresh e he
  refine ⟨?_, hdel, ?_, rfl, ?_, ?_⟩
  · unfold MemoryService.logTurn
    rw [if_pos rfl]
    unfold MemoryService.historyMessages at *
    rw [List.filter_append, List.map_append]
    have := MemoryService.historyMessages_logged chatId turn
    unfold MemoryService.historyMessages at this
    rw [this]
  · unfold MemoryService.historyRead
    rw [hdel]
    rfl
  · unfold MemoryService.historyRead
    rw [hfresh2]
    rfl
  · unfold MemoryService.historyRead
    rw [hfresh2]

/-- Witness for C7 at a concrete store with one unrelated conversation. -/
theorem chatHistory_contract_witness :
    MemoryService.historyMessages
        (MemoryService.logTurn [("other", ⟨"user", "hi"⟩)] "c1"
          [⟨"user", "hello"⟩, ⟨"assistant", "hey"⟩] true) "c1" =
      MemoryService.historyMessages [("other", ⟨"user", "hi"⟩)] "c1" ++
        [⟨"user", "hello"⟩, ⟨"assistant", "hey"⟩] ∧
    MemoryService.historyMessages
        (MemoryService.historyDelete [("other", ⟨"user", "hi"⟩)] "c1").1 "c1" = [] ∧
    MemoryService.historyRead
        (MemoryService.historyDelete [("other", ⟨"user", "hi"⟩)] "c1").1 "c1" =
      ⟨200, .obj [("messages", .arr [])]⟩ ∧
    (MemoryService.historyDelete [("other", ⟨"user", "hi"⟩)] "c1").2 =
      ⟨200, .obj [("success", .bool true)]⟩ ∧
    MemoryService.historyRead [("other", ⟨"user", "hi"⟩)] "c1" =
      ⟨200, .obj [("messages", .arr [])]⟩ ∧
    (MemoryService.historyRead [("other", ⟨"user", "hi"⟩)] "c1").status = 200 :=
  chatHistory_contract [("other", ⟨"user", "hi"⟩)] "c1"
    [⟨"user", "hello"⟩, ⟨"assistant", "hey"⟩] "c1"
    (by intro e he; simp at he; simp [he])

/-- Looking a fact up by id commutes with marking some id superseded,
because marking never changes ids. -/
theorem MemoryService.find?_map_markSuperseded (byId oldId tid : String)
    (l : List MemoryService.Fact) :
    List.find? (fun f => decide (f.id = tid))
        (List.map (MemoryService.markSuperseded byId oldId) l) =
      (List.find? (fun f => decide (f.id = tid)) l).map
        (MemoryService.markSuperseded byId oldId) := by
  rw [List.find?_map]
  have hp : ((fun f => decide (f.id = tid)) ∘ MemoryService.markSuperseded byId oldId) =
      (fun f => decide (f.id = tid)) := by
    funext f
    simp [Function.comp, MemoryService.markSuperseded_id]
  rw [hp]

/-- The default (active-only) listing filter accepts only active facts. -/
theorem MemoryService.listedStatus_false_eq (s : MemoryService.FactStatus) :
    MemoryService.listedStatus false s = true ↔ s = .active := by
  cases s <;> simp [MemoryService.listedStatus]

/-- Claim C2: creating a fact that supersedes an existing fact of the same
subject makes the original's status non-active (superseded, pointing at
its replacement); the original is excluded from the default list and from
search results for that subject; and listing with `include_superseded=true`
returns both the original and the superseding fact. -/
theorem supersede_contract (store : MemoryService.FactStore)
    (orig : MemoryService.Fact) (newId text2 : String)
    (store2 : MemoryService.FactStore)
    (hstore2 : store2 =
      MemoryService.createFact store newId orig.subject_id text2 (some orig.id))
    (hget : MemoryService.getFact store orig.id = some orig)
    (_hactive : orig.status = .active)
    (hid : newId ≠ orig.id) :
    MemoryService.getFact store2 orig.id =
      some { orig with status := .superseded, superseded_by := some newId } ∧
    (MemoryService.getFact store2 orig.id).map MemoryService.Fact.status ≠
      some .active ∧
    (∀ f ∈ MemoryService.listFacts store2 orig.subject_id false, f.id ≠ orig.id) ∧
    (∀ rel : String → Bool,
      ∀ f ∈ MemoryService.searchFacts rel store2 orig.subject_id, f.id ≠ orig.id) ∧
    (∃ f ∈ MemoryService.listFacts store2 orig.subject_id true, f.id = orig.id) ∧
    (∃ f ∈ MemoryService.listFacts store2 orig.subject_id true, f.id = newId) := by
  subst hstore2
  have horigmem : orig ∈ store := List.mem_of_find?_eq_some hget
  have hgf : MemoryService.getFact
      (MemoryService.createFact store newId orig.subject_id text2 (some orig.id))
      orig.id =
      some { orig with status := .superseded, superseded_by := some newId } := by
    unfold MemoryService.getFact MemoryService.createFact
    rw [List.find?_cons_of_neg _ (by simp [hid]),
      MemoryService.find?_map_markSuperseded]
    unfold MemoryService.getFact at hget
    rw [hget, Option.map_some', MemoryService.markSuperseded_self]
  have hexcl : ∀ f ∈ MemoryService.listFacts
      (MemoryService.createFact store newId orig.subject_id text2 (some orig.id))
      orig.subject_id false, f.id ≠ orig.id := by
    intro f hf
    unfold MemoryService.listFacts MemoryService.createFact at hf
    rw [List.mem_filter] at hf
    obtain ⟨hmem, hcond⟩ := hf
    rw [Bool.and_eq_true] at hcond
    have hstat : f.status = .active :=
      (MemoryService.listedStatus_false_eq f.status).mp hcond.2
    rcases List.mem_cons.mp hmem with hhead | htail
    · rw [hhead]
      exact hid
    · obtain ⟨a, _, ha⟩ := List.mem_map.mp htail
      by_cases hcase : a.id = orig.id
      · exfalso
        have : f.status = .superseded := by
          rw [← ha]
          unfold MemoryService.markSuperseded
          rw [if_pos hcase]
        rw [hstat] at this
        exact MemoryService.FactStatus.noConfusion this
      · have : f.id = a.id := by
          rw [← ha]
          exact MemoryService.markSuperseded_id newId orig.id a
        rw [this]
        exact hcase
  refine ⟨hgf, ?_, hexcl, ?_, ?_, ?_⟩
  · rw [hgf]
    simp
  · intro rel f hf
    unfold MemoryService.searchFacts at hf
    rw [List.mem_filter] at hf
    exact hexcl f hf.1
  · refine ⟨MemoryService.markSuperseded newId orig.id orig, ?_, ?_⟩
    · unfold MemoryService.listFacts MemoryService.createFact
      rw [List.mem_filter]
      constructor
      · exact List.mem_cons_of_mem _ (List.mem_map_of_mem _ horigmem)
      · rw [MemoryService.markSuperseded_self]
        simp [MemoryService.listedStatus]
    · exact MemoryService.markSuperseded_id newId orig.id orig
  · refine ⟨⟨newId, orig.subject_id, text2, .active, none⟩, ?_, rfl⟩
    unfold MemoryService.listFacts MemoryService.createFact
    rw [List.mem_filter]
    exact ⟨List.mem_cons_self _ _, by simp [MemoryService.listedStatus]⟩

/-- Witness for C2: the spec's example — a blueberry fact superseded by an
apple fact. -/
theorem supersede_contract_witness :
    MemoryService.getFact
        (MemoryService.createFact
          [⟨"m1", "subjS", "favorite fruit is blueberry", .active, none⟩]
          "m2" "subjS" "favorite fruit is apple" (some "m1")) "m1" =
      some ⟨"m1", "subjS", "favorite fruit is blueberry", .superseded, some "m2"⟩ ∧
    (MemoryService.getFact
        (MemoryService.createFact
          [⟨"m1", "subjS", "favorite fruit is blueberry", .active, none⟩]
          "m2" "subjS" "favorite fruit is apple" (some "m1")) "m1").map
        MemoryService.Fact.status ≠ some .active ∧
    (∀ f ∈ MemoryService.listFacts
        (MemoryService.createFact
          [⟨"m1", "subjS", "favorite fruit is blueberry", .active, none⟩]
          "m2" "subjS" "favorite fruit is apple" (some "m1")) "subjS" false,
      f.id ≠ "m1") ∧
    (∀ rel : String → Bool,
      ∀ f ∈ MemoryService.searchFacts rel
        (MemoryService.createFact
          [⟨"m1", "subjS", "favorite fruit is blueberry", .active, none⟩]
          "m2" "subjS" "favorite fruit is apple" (some "m1")) "subjS",
      f.id ≠ "m1") ∧
    (∃ f ∈ MemoryService.listFacts
        (MemoryService.createFact
          [⟨"m1", "subjS", "favorite fruit is blueberry", .active, none⟩]
          "m2" "subjS" "favorite fruit is apple" (some "m1")) "subjS" true,
      f.id = "m1") ∧
    (∃ f ∈ MemoryService.listFacts
        (MemoryService.createFact
          [⟨"m1", "subjS", "favorite fruit is blueberry", .active, none⟩]
          "m2" "subjS" "favorite fruit is apple" (some "m1")) "subjS" true,
      f.id = "m2") :=
  supersede_contract
    [⟨"m1", "subjS", "favorite fruit is blueberry", .active, none⟩]
    ⟨"m1", "subjS", "favorite fruit is blueberry", .active, none⟩
    "m2" "favorite fruit is apple" _ rfl rfl rfl (by simp)

/-- Claim C8: each of the five pass-through routes of the demo server
answers 400 with a JSON `error` body — without forwarding — when its
required query parameter is absent (`subject_id` for `/history/list`,
`/memories/list`, `/memories/search`; `chat_id` for `/history/read`,
`/history/delete`; `q` for `/memories/search`), and forwards to the
corresponding external endpoint when the required parameters are
present (and non-empty, which is how the JavaScript truthiness test
reads "present"). -/
theorem route_param_validation (query : Query) :
    (query.get "subject_id" = none →
      handleRequest "GET" "/history/list" query =
        .respond ⟨400, .obj [("error", .str "subject_id required")]⟩) ∧
    (∀ s, query.get "subject_id" = some s → s ≠ "" →
      handleRequest "GET" "/history/list" query = .forwardHistoryList s) ∧
    (query.get "chat_id" = none →
      handleRequest "GET" "/history/read" query =
        .respond ⟨400, .obj [("error", .str "chat_id required")]⟩) ∧
    (∀ c, query.get "chat_id" = some c → c ≠ "" →
      handleRequest "GET" "/history/read" query =
        .forwardHistoryRead c ((query.get "subject_id").getD "")) ∧
    (query.get "chat_id" = none →
      handleRequest "DELETE" "/history/delete" query =
        .respond ⟨400, .obj [("error", .str "chat_id required")]⟩) ∧
    (∀ c, query.get "chat_id" = some c → c ≠ "" →
      handleRequest "DELETE" "/history/delete" query =
        .forwardHistoryDelete c ((query.get "subject_id").getD "")) ∧
    (query.get "subject_id" = none →
      handleRequest "GET" "/memories/list" query =
        .respond ⟨400, .obj [("error", .str "subject_id required")]⟩) ∧
    (∀ s, query.get "subject_id" = some s → s ≠ "" →
      handleRequest "GET" "/memories/list" query = .forwardMemoriesList s) ∧
    (query.get "subject_id" = none →
      handleRequest "GET" "/memories/search" query =
        .respond ⟨400, .obj [("error", .str "subject_id required")]⟩) ∧
    (∀ s, query.get "subject_id" = some s → s ≠ "" → query.get "q" = none →
      handleRequest "GET" "/memories/search" query =
        .respond ⟨400, .obj [("error", .str "q (query) required")]⟩) ∧
    (∀ s qv, query.get "subject_id" = some s → s ≠ "" →
      query.get "q" = some qv → qv ≠ "" →
      handleRequest "GET" "/memories/search" query =
        .forwardMemoriesSearch s qv) := by
  have e1 : handleRequest "GET" "/history/list" query =
      (if !truthy (query.get "subject_id") then
        .respond ⟨400, .obj [("error", .str "subject_id required")]⟩
      else .forwardHistoryList ((query.get "subject_id").getD "")) := rfl
  have e2 : handleRequest "GET" "/history/read" query =
      (if !truthy (query.get "chat_id") then
        .respond ⟨400, .obj [("error", .str "chat_id required")]⟩
      else .forwardHistoryRead ((query.get "chat_id").getD "")
        ((query.get "subject_id").getD "")) := rfl
  have e3 : handleRequest "DELETE" "/history/delete" query =
      (if !truthy (query.get "chat_id") then
        .respond ⟨400, .obj [("error", .str "chat_id required")]⟩
      else .forwardHistoryDelete ((query.get "chat_id").getD "")
        ((query.get "subject_id").getD "")) := rfl
  have e4 : handleRequest "GET" "/memories/list" query =
      (if !truthy (query.get "subject_id") then
        .respond ⟨400, .obj [("error", .str "subject_id required")]⟩
      else .forwardMemoriesList ((query.get "subject_id").getD "")) := rfl
  have e5 : handleRequest "GET" "/memories/search" query =
      (if !truthy (query.get "subject_id") then
        .respond ⟨400, .obj [("error", .str "subject_id required")]⟩
      else if !truthy (query.get "q") then
        .respond ⟨400, .obj [("error", .str "q (query) required")]⟩
      else .forwardMemoriesSearch ((query.get "subject_id").getD "")
        ((query.get "q").getD "")) := rfl
  refine ⟨?_, ?_, ?_, ?_, ?_, ?_, ?_, ?_, ?_, ?_, ?_⟩
  · intro h
    rw [e1, h]
    rfl
  · intro s hs hne
    rw [e1, hs]
    simp [truthy, hne]
  · intro h
    rw [e2, h]
    rfl
  · intro c hc hne
    rw [e2, hc]
    simp [truthy, hne]
  · intro h
    rw [e3, h]
    rfl
  · intro c hc hne
    rw [e3, hc]
    simp [truthy, hne]
  · intro h
    rw [e4, h]
    rfl
  · intro s hs hne
    rw [e4, hs]
    simp [truthy, hne]
  · intro h
    rw [e5, h]
    rfl
  · intro s hs hne hq
    rw [e5, hs, hq]
    simp [truthy, hne]
  · intro s qv hs hne hq hqne
    rw [e5, hs, hq]
    simp [truthy, hne, hqne]

/-- Witness for C8: a missing `subject_id` is rejected locally with 400,
while complete parameter sets are forwarded. -/
theorem route_param_validation_witness :
    handleRequest "GET" "/history/list" [("chat_id", "c1")] =
      .respond ⟨400, .obj [("error", .str "subject_id required")]⟩ ∧
    handleRequest "GET" "/history/list" [("subject_id", "alice")] =
      .forwardHistoryList "alice" ∧
    handleRequest "GET" "/memories/search" [("subject_id", "alice"), ("q", "tea")] =
      .forwardMemoriesSearch "alice" "tea" :=
  ⟨(route_param_validation [("chat_id", "c1")]).1 rfl,
   (route_param_validation [("subject_id", "alice")]).2.1 "alice" rfl (by simp),
   (route_param_validation [("subject_id", "alice"), ("q", "tea")]).2.2.2.2.2.2.2.2.2.2
     "alice" "tea" rfl (by simp) rfl (by simp)⟩

/-- Claim C10, counterexample.  The claim says every `/chat` response is
either 500 with an error body or 200 with a body containing the `content`
field.  But when the upstream JSON has an existing `content[0]` object that
merely lacks `text`, the access `content[0].text` yields `undefined`
without throwing, and `JSON.stringify({ content: undefined })` is `{}` —
the handler answers 200 with a body that has no `content` field. -/
theorem chatRoute_missing_text_counterexample :
    (chatRoute (.parsed [⟨"user", "hi"⟩] "s" "c")
        (.ok (.obj [("output", .arr [.obj [("content", .arr [.obj []])]])]))).status = 200 ∧
    (chatRoute (.parsed [⟨"user", "hi"⟩] "s" "c")
        (.ok (.obj [("output", .arr [.obj [("content", .arr [.obj []])]])]))).body =
      .obj [] ∧
    (chatRoute (.parsed [⟨"user", "hi"⟩] "s" "c")
        (.ok (.obj [("output", .arr [.obj [("content", .arr [.obj []])]])]))).body.getField
      "content" = none :=
  ⟨rfl, rfl, rfl⟩

/-- Claim C10, amended: the `/chat` route handler is a total function of
the parse and upstream outcomes, so it sends exactly one response and
never crashes.  An invalid JSON body, an empty (or missing) `messages`
array, an upstream transport/parse failure, and a throwing step of the
access path `data.output[0].content[0].text` (reading a property of an
`undefined` or `null` intermediate) each produce 500 with a JSON `error`
body; otherwise the handler answers 200 with `JSON.stringify({content})`,
which contains the `content` field exactly when the final `text` property
is present — a present but merely `text`-less `content[0]` yields 200 with
the empty object `{}`, not an error. -/
theorem chatRoute_single_response (body : ChatBodyParse) (up : UpstreamOutcome) :
    (((chatRoute body up).status = 200 ∧
        ((chatRoute body up).body = .obj [] ∨
          ∃ v, (chatRoute body up).body = .obj [("content", v)])) ∨
      ((chatRoute body up).status = 500 ∧
        (∃ m, (chatRoute body up).body.getField "error" = some (.str m)))) ∧
    (∀ msg, chatRoute (.invalid msg) up = ⟨500, .obj [("error", .str msg)]⟩) ∧
    (∀ s c, (chatRoute (.parsed [] s c) up).status = 500) ∧
    (∀ ms s c msg, ms ≠ [] →
      chatRoute (.parsed ms s c) (.failure msg) = ⟨500, .obj [("error", .str msg)]⟩) ∧
    (∀ ms s c data msg, ms ≠ [] → extractContent data = .error msg →
      chatRoute (.parsed ms s c) (.ok data) = ⟨500, .obj [("error", .str msg)]⟩) ∧
    (∀ ms s c data v, ms ≠ [] → extractContent data = .ok (some v) →
      chatRoute (.parsed ms s c) (.ok data) = ⟨200, .obj [("content", v)]⟩) ∧
    (∀ ms s c data, ms ≠ [] → extractContent data = .ok none →
      chatRoute (.parsed ms s c) (.ok data) = ⟨200, .obj []⟩) := by
  refine ⟨?_, fun msg => rfl, fun s c => rfl, ?_, ?_, ?_, ?_⟩
  · cases body with
    | invalid msg => exact Or.inr ⟨rfl, msg, rfl⟩
    | parsed ms s c =>
      cases hlast : ms.getLast? with
      | none =>
        have hval : chatRoute (.parsed ms s c) up =
            ⟨500, .obj [("error", .str "TypeError: Cannot read properties of undefined")]⟩ := by
          simp [chatRoute, chat, chatRequestBody, hlast]
        rw [hval]
        exact Or.inr ⟨rfl, _, rfl⟩
      | some last =>
        cases up with
        | failure msg =>
          have hval : chatRoute (.parsed ms s c) (.failure msg) =
              ⟨500, .obj [("error", .str msg)]⟩ := by
            simp [chatRoute, chat, chatRequestBody, hlast]
          rw [hval]
          exact Or.inr ⟨rfl, msg, rfl⟩
        | ok data =>
          cases hex : extractContent data with
          | error msg =>
            have hval : chatRoute (.parsed ms s c) (.ok data) =
                ⟨500, .obj [("error", .str msg)]⟩ := by
              simp [chatRoute, chat, chatRequestBody, hlast, hex]
            rw [hval]
            exact Or.inr ⟨rfl, msg, rfl⟩
          | ok content =>
            cases content with
            | none =>
              have hval : chatRoute (.parsed ms s c) (.ok data) = ⟨200, .obj []⟩ := by
                simp [chatRoute, chat, chatRequestBody, contentResponseBody, hlast, hex]
              rw [hval]
              exact Or.inl ⟨rfl, Or.inl rfl⟩
            | some v =>
              have hval : chatRoute (.parsed ms s c) (.ok data) =
                  ⟨200, .obj [("content", v)]⟩ := by
                simp [chatRoute, chat, chatRequestBody, contentResponseBody, hlast, hex]
              rw [hval]
              exact Or.inl ⟨rfl, Or.inr ⟨v, rfl⟩⟩
  · intro ms s c msg h
    simp [chatRoute, chat, chatRequestBody, List.getLast?_eq_getLast ms h]
  · intro ms s c data msg h hex
    simp [chatRoute, chat, chatRequestBody, List.getLast?_eq_getLast ms h, hex]
  · intro ms s c data v h hex
    simp [chatRoute, chat, chatRequestBody, contentResponseBody,
      List.getLast?_eq_getLast ms h, hex]
  · intro ms s c data h hex
    simp [chatRoute, chat, chatRequestBody, contentResponseBody,
      List.getLast?_eq_getLast ms h, hex]

/-- Witness for the amended C10 at a well-shaped upstream response. -/
theorem chatRoute_single_response_witness :
    (((chatRoute (.parsed [⟨"user", "hi"⟩] "s" "c")
          (.ok (.obj [("output",
            .arr [.obj [("content", .arr [.obj [("text", .str "hello there")]])]])]))).status = 200 ∧
        ((chatRoute (.parsed [⟨"user", "hi"⟩] "s" "c")
          (.ok (.obj [("output",
            .arr [.obj [("content", .arr [.obj [("text", .str "hello there")]])]])]))).body =
            .obj [] ∨
          ∃ v, (chatRoute (.parsed [⟨"user", "hi"⟩] "s" "c")
            (.ok (.obj [("output",
              .arr [.obj [("content", .arr [.obj [("text", .str "hello there")]])]])]))).body =
              .obj [("content", v)])) ∨
      ((chatRoute (.parsed [⟨"user", "hi"⟩] "s" "c")
          (.ok (.obj [("output",
            .arr [.obj [("content", .arr [.obj [("text", .str "hello there")]])]])]))).status = 500 ∧
        (∃ m, (chatRoute (.parsed [⟨"user", "hi"⟩] "s" "c")
          (.ok (.obj [("output",
            .arr [.obj [("content", .arr [.obj [("text", .str "hello there")]])]])]))).body.getField
            "error" = some (.str m)))) ∧
    (∀ msg, chatRoute (.invalid msg)
        (.ok (.obj [("output",
          .arr [.obj [("content", .arr [.obj [("text", .str "hello there")]])]])])) =
      ⟨500, .obj [("error", .str msg)]⟩) ∧
    (∀ s c, (chatRoute (.parsed [] s c)
        (.ok (.obj [("output",
          .arr [.obj [("content", .arr [.obj [("text", .str "hello there")]])]])]))).status = 500) ∧
    (∀ ms s c msg, ms ≠ [] →
      chatRoute (.parsed ms s c) (.failure msg) = ⟨500, .obj [("error", .str msg)]⟩) ∧
    (∀ ms s c data msg, ms ≠ [] → extractContent data = .error msg →
      chatRoute (.parsed ms s c) (.ok data) = ⟨500, .obj [("error", .str msg)]⟩) ∧
    (∀ ms s c data v, ms ≠ [] → extractContent data = .ok (some v) →
      chatRoute (.parsed ms s c) (.ok data) = ⟨200, .obj [("content", v)]⟩) ∧
    (∀ ms s c data, ms ≠ [] → extractContent data = .ok none →
      chatRoute (.parsed ms s c) (.ok data) = ⟨200, .obj []⟩) :=
  chatRoute_single_response (.parsed [⟨"user", "hi"⟩] "s" "c")
    (.ok (.obj [("output", .arr [.obj [("content", .arr [.obj [("text", .str "hello there")]])]])]))

end Mnexium
